import Mathlib

/-!
Formal model of `src/notebooks/dagshub_setup.py`.

The script is a straight-line sequence of calls into two external client
libraries (an experiment-tracking client and a hosted-repository
integration).  We embed its behaviour as the trace of tracking calls it
issues, together with its outcome (normal completion or a propagated
failure).  The external libraries are not part of the repository, so their
observable contract is modelled from the spec: each remote operation may
fail, and a failing operation raises an error that propagates; the scoped
run context finalizes the run on every exit path, marking it failed on
abnormal exit.  Which operations fail in a given execution is captured by a
fault environment, so theorems quantify over every possible
success/failure pattern of the external calls.
-/

/-- One observable tracking call issued by the script, or the run
finalization performed by the scoped run context on exit. -/
inductive Event where
  | setTrackingUri (uri : String)
  | dagshubInit (repo_owner repo_name : String) (mlflowEnabled : Bool)
  | startRun
  | logParam (name value : String)
  | logMetric (name : String) (value : Int)
  | endRun (failed : Bool)
  deriving DecidableEq

/-- The error raised by a failing external tracking operation. -/
inductive Err where
  | initError
  | startRunError
  | logParamError
  | logMetricError
  deriving DecidableEq

/-- Which of the remote tracking operations fail in a given execution.
The script performs no recovery, so an execution is fully determined by
this pattern of external outcomes. -/
structure FaultEnv where
  initFails : Bool
  startRunFails : Bool
  logParamFails : Bool
  logMetricFails : Bool
  deriving DecidableEq, Fintype

/-- The result of a straight-line fragment of the script: the list of
tracking events it issued, and either normal completion or the error that
propagated out of it. -/
abbrev Tr := List Event × Except Err Unit

/-- Sequencing of two fragments: if the first raises, the second never
runs and the error propagates (Python statement sequencing). -/
def tbind (a : Tr) (b : Unit → Tr) : Tr :=
  match a with
  | (evs, Except.ok _) =>
      let r := b ()
      (evs ++ r.1, r.2)
  | (evs, Except.error e) => (evs, Except.error e)

/-- A single remote call: the call is issued (recorded in the trace), then
either returns normally or raises the given error. -/
def issue (ev : Event) (fails : Bool) (e : Err) : Tr :=
  ([ev], if fails then Except.error e else Except.ok ())

namespace mlflow

/-- Modelled from the spec: `mlflow.set_tracking_uri` sets the
process-wide tracking destination; no local validation is performed and
the call itself does not fail. -/
def set_tracking_uri (uri : String) : Tr :=
  ([Event.setTrackingUri uri], Except.ok ())

/-- Modelled from the spec: `mlflow.log_param` submits one (name, value)
parameter record for the current run; it fails if the remote call fails. -/
def log_param (env : FaultEnv) (name value : String) : Tr :=
  issue (Event.logParam name value) env.logParamFails Err.logParamError

/-- Modelled from the spec: `mlflow.log_metric` submits one
(name, numeric value) metric record for the current run; it fails if the
remote call fails. -/
def log_metric (env : FaultEnv) (name : String) (value : Int) : Tr :=
  issue (Event.logMetric name value) env.logMetricFails Err.logMetricError

/-- Modelled from the spec: `with mlflow.start_run():` acquires a run as a
scoped resource.  Opening may fail, in which case no run exists and no
finalization happens.  If the run opens, the body runs and the run is
finalized on every exit path from the block: marked complete on normal
completion, marked failed when the body raises, with the body's error then
propagating onward. -/
def start_run (env : FaultEnv) (body : Tr) : Tr :=
  if env.startRunFails then
    ([Event.startRun], Except.error Err.startRunError)
  else
    match body with
    | (evs, Except.ok _) =>
        (Event.startRun :: (evs ++ [Event.endRun false]), Except.ok ())
    | (evs, Except.error e) =>
        (Event.startRun :: (evs ++ [Event.endRun true]), Except.error e)

end mlflow

namespace dagshub

/-- Modelled from the spec: `dagshub.init` establishes the remote project
binding for the given owner and project, with the tracking integration
flag; it fails if the remote service or credentials fail. -/
def init (env : FaultEnv) (repo_owner repo_name : String)
    (mlflowEnabled : Bool) : Tr :=
  issue (Event.dagshubInit repo_owner repo_name mlflowEnabled)
    env.initFails Err.initError

end dagshub

/-- The tracking destination URL literal of line 4 of the script. -/
def tracking_uri : String :=
  "https://dagshub.com/dharsourav03/MLOPS-MINI-PROJECT-V3.mlflow"

/-- The `repo_owner` argument literal of line 5 of the script. -/
def repo_owner : String := "dharsourav03"

/-- The `repo_name` argument literal of line 6 of the script. -/
def repo_name : String := "MLOPS-MINI-PROJECT-V3"

/-- The script `src/notebooks/dagshub_setup.py`, line by line:
set the tracking URI, initialize the dagshub binding, then inside a scoped
run log one parameter and one metric. -/
def script (env : FaultEnv) : Tr :=
  tbind (mlflow.set_tracking_uri tracking_uri) fun _ =>
  tbind (dagshub.init env repo_owner repo_name true) fun _ =>
  mlflow.start_run env
    (tbind (mlflow.log_param env "parameter name" "value") fun _ =>
     mlflow.log_metric env "metric name" 1)

/-- The sequence of tracking events an execution issues. -/
def trace (env : FaultEnv) : List Event := (script env).1

/-- Whether an execution completes normally. -/
def succeeded (env : FaultEnv) : Bool :=
  match (script env).2 with
  | Except.ok _ => true
  | Except.error _ => false

/-- The error that propagates uncaught out of an execution, if any. -/
def raisedErr (env : FaultEnv) : Option Err :=
  match (script env).2 with
  | Except.ok _ => none
  | Except.error e => some e

/-- The first external operation, in program order, that fails in the
given environment. -/
def firstFault (env : FaultEnv) : Option Err :=
  if env.initFails then some Err.initError
  else if env.startRunFails then some Err.startRunError
  else if env.logParamFails then some Err.logParamError
  else if env.logMetricFails then some Err.logMetricError
  else none

/-- Process-level external input a Python process could read: command-line
arguments, environment variables, file contents. -/
structure ExternalInput where
  argv : List String
  environ : String → Option String
  fileContents : String → Option String

/-- The script as a function of process-level external input.  The source
contains no read of command-line arguments, environment variables or
files, so its denotation does not depend on the input argument. -/
def scriptOfInput (_inp : ExternalInput) (env : FaultEnv) : Tr :=
  script env

/-- Recognizer for tracking-destination events. -/
def isSetUri : Event → Bool
  | Event.setTrackingUri _ => true
  | _ => false

/-- Recognizer for project-binding events. -/
def isInit : Event → Bool
  | Event.dagshubInit _ _ _ => true
  | _ => false

/-- Recognizer for run-open events. -/
def isStartRun : Event → Bool
  | Event.startRun => true
  | _ => false

/-- Recognizer for run-finalization events. -/
def isEndRun : Event → Bool
  | Event.endRun _ => true
  | _ => false

/-- Recognizer for run finalization with a specific failure flag. -/
def isEndRunWith (b : Bool) : Event → Bool
  | Event.endRun f => f == b
  | _ => false

/-- Recognizer for parameter-logging events. -/
def isLogParam : Event → Bool
  | Event.logParam _ _ => true
  | _ => false

/-- Recognizer for metric-logging events. -/
def isLogMetric : Event → Bool
  | Event.logMetric _ _ => true
  | _ => false

/-- Scans a trace keeping track of whether a run is currently open, and
checks that every logging event happens while a run is open. -/
def logsInScopeAux : Bool → List Event → Bool
  | _, [] => true
  | _, Event.startRun :: rest => logsInScopeAux true rest
  | _, Event.endRun _ :: rest => logsInScopeAux false rest
  | inRun, Event.logParam _ _ :: rest => inRun && logsInScopeAux inRun rest
  | inRun, Event.logMetric _ _ :: rest => inRun && logsInScopeAux inRun rest
  | inRun, _ :: rest => logsInScopeAux inRun rest

/-- Every logging event in the trace occurs after a run was opened and
before it was finalized. -/
def logsInScope (l : List Event) : Bool := logsInScopeAux false l

/-- Scans a trace checking that every metric-logging event is preceded by
some parameter-logging event. -/
def paramPrecedesMetricAux : Bool → List Event → Bool
  | _, [] => true
  | seen, Event.logMetric _ _ :: rest => seen && paramPrecedesMetricAux seen rest
  | _, Event.logParam _ _ :: rest => paramPrecedesMetricAux true rest
  | seen, _ :: rest => paramPrecedesMetricAux seen rest

/-- Every metric-logging event in the trace is strictly preceded by a
parameter-logging event. -/
def paramPrecedesMetric (l : List Event) : Bool := paramPrecedesMetricAux false l

/-- The trace starts with a tracking-destination event, the destination is
never set again afterwards, and exactly one project-binding event follows
it. -/
def uriSetOnceBeforeInit : List Event → Bool
  | Event.setTrackingUri _ :: rest =>
      rest.countP isSetUri == 0 && rest.countP isInit == 1
  | _ => false


/-- C1: in every execution at most one run-open call and one finalization
occur; whenever the project binding succeeds, exactly one run-open call is
issued, and whenever the run also opens, it is finalized exactly once on
every exit path from the scoped block — marked complete on normal
completion and marked failed on abnormal exit, including the path where a
logging call inside the block raises a propagated failure. -/
theorem run_opened_once_finalized_once (env : FaultEnv) :
    (trace env).countP isStartRun ≤ 1 ∧
    (trace env).countP isEndRun ≤ 1 ∧
    (env.initFails = false →
      (trace env).countP isStartRun = 1 ∧
      (env.startRunFails = false →
        (trace env).countP isEndRun = 1 ∧
        (succeeded env = true →
          (trace env).countP (isEndRunWith false) = 1) ∧
        (succeeded env = false →
          (trace env).countP (isEndRunWith true) = 1))) := by
  revert env; decide

/-- Witness for C1, at the environment where the parameter-logging call
inside the block fails: the run is still finalized exactly once, marked
failed. -/
theorem run_opened_once_finalized_once_witness :
    (trace ⟨false, false, true, false⟩).countP isEndRun = 1 ∧
    (trace ⟨false, false, true, false⟩).countP (isEndRunWith true) = 1 := by
  have h := run_opened_once_finalized_once ⟨false, false, true, false⟩
  exact ⟨((h.2.2 rfl).2 rfl).1, ((h.2.2 rfl).2 rfl).2.2 rfl⟩

/-- C2: in every execution the remote project binding is initialized
exactly once, with owner "dharsourav03", project "MLOPS-MINI-PROJECT-V3",
and the mlflow integration flag enabled. -/
theorem dagshub_init_once_with_identity (env : FaultEnv) :
    (trace env).filter isInit =
      [Event.dagshubInit repo_owner repo_name true] ∧
    repo_owner = "dharsourav03" ∧
    repo_name = "MLOPS-MINI-PROJECT-V3" := by
  revert env; decide

/-- C3: at most one parameter-logging call per execution, every
parameter-logging event carries name "parameter name" and value "value",
and in every execution where the binding succeeds and the run opens
exactly one parameter record is logged. -/
theorem one_param_record (env : FaultEnv) :
    (trace env).countP isLogParam ≤ 1 ∧
    ((trace env).filter isLogParam).all
      (fun e => e == Event.logParam "parameter name" "value") = true ∧
    (env.initFails = false → env.startRunFails = false →
      (trace env).filter isLogParam =
        [Event.logParam "parameter name" "value"]) := by
  revert env; decide

/-- Witness for C3, at the fault-free environment: exactly one parameter
record with the literal payload. -/
theorem one_param_record_witness :
    (trace ⟨false, false, false, false⟩).filter isLogParam =
      [Event.logParam "parameter name" "value"] :=
  (one_param_record ⟨false, false, false, false⟩).2.2 rfl rfl

/-- C4: at most one metric-logging call per execution, every
metric-logging event carries name "metric name" and numeric value 1, and
in every execution where the binding succeeds, the run opens and the
parameter call returns, exactly one metric record is logged. -/
theorem one_metric_record (env : FaultEnv) :
    (trace env).countP isLogMetric ≤ 1 ∧
    ((trace env).filter isLogMetric).all
      (fun e => e == Event.logMetric "metric name" 1) = true ∧
    (env.initFails = false → env.startRunFails = false →
      env.logParamFails = false →
      (trace env).filter isLogMetric =
        [Event.logMetric "metric name" 1]) := by
  revert env; decide

/-- Witness for C4, at the fault-free environment: exactly one metric
record with the literal payload. -/
theorem one_metric_record_witness :
    (trace ⟨false, false, false, false⟩).filter isLogMetric =
      [Event.logMetric "metric name" 1] :=
  (one_metric_record ⟨false, false, false, false⟩).2.2 rfl rfl rfl

/-- C5: in every execution the trace begins with the single
tracking-destination event, the destination is never set again afterwards,
and the project-binding call happens after it. -/
theorem uri_set_once_before_binding (env : FaultEnv) :
    uriSetOnceBeforeInit (trace env) = true ∧
    (trace env).countP isSetUri = 1 ∧
    (trace env).head? = some (Event.setTrackingUri tracking_uri) := by
  revert env; decide

/-- C6: in every execution, every logging call (parameter or metric)
occurs after the run-open event and before the run-finalization event:
no logging call outside the run scope. -/
theorem logs_within_run_scope (env : FaultEnv) :
    logsInScope (trace env) = true := by
  revert env; decide

/-- C7: the error propagating out of an execution is exactly the first
failing tracking operation in program order — no recovery turns a failure
into normal completion — and no call is ever repeated (no retry: the trace
has no duplicate event). -/
theorem failures_propagate_uncaught (env : FaultEnv) :
    raisedErr env = firstFault env ∧ (trace env).Nodup := by
  revert env; decide

/-- C8: the script reads no command-line arguments, environment variables
or files, so its issued call trace and outcome are identical across any
two external inputs. -/
theorem trace_independent_of_external_input
    (i j : ExternalInput) (env : FaultEnv) :
    scriptOfInput i env = scriptOfInput j env := rfl

/-- C9: the tracking destination URL is exactly the dagshub URL built from
the owner and project identifiers later passed to the project-binding
call, and every execution issues exactly one destination event carrying
that URL. -/
theorem uri_consistent_with_repo_identity :
    tracking_uri =
      "https://dagshub.com/" ++ repo_owner ++ "/" ++ repo_name ++ ".mlflow" ∧
    ∀ env : FaultEnv,
      (trace env).countP
        (fun e => e == Event.setTrackingUri
          ("https://dagshub.com/" ++ repo_owner ++ "/" ++ repo_name ++
            ".mlflow")) = 1 := by
  constructor
  · decide
  · decide

/-- C10: in every execution, every metric-logging event is strictly
preceded by a parameter-logging event, and if the parameter-logging call
fails no metric-logging call is ever issued. -/
theorem param_logged_before_metric (env : FaultEnv) :
    paramPrecedesMetric (trace env) = true ∧
    (env.logParamFails = true → (trace env).countP isLogMetric = 0) := by
  revert env; decide

/-- Witness for C10, at the environment where the parameter-logging call
fails: no metric-logging call is issued. -/
theorem param_logged_before_metric_witness :
    (trace ⟨false, false, true, false⟩).countP isLogMetric = 0 :=
  (param_logged_before_metric ⟨false, false, true, false⟩).2 rfl
